import Mathlib

/-!
Verification of the nest-firestore-orm convenience layer.

The library wraps the `@google-cloud/firestore` client: a decorator that
tags a class with a collection name (src/lib/decorators.ts), a repository
base class with CRUD and transaction helpers (src/lib/repository-base.ts),
a fluent query builder (src/lib/firestore.query-builder.ts), and the
snapshot-reshaping helper `toDocumentWithId` (src/lib/types.ts).

The client itself is external; we model it as an oracle: a structure of
functions from call arguments to `Except`-valued results.  Every wrapper
operation is embedded as a function that returns both the list of client
calls it performs (its trace) and its result, so that delegation shape,
error pass-through and collection confinement become provable statements.
-/

namespace Firestore

/-- Primitive field values stored in a document. -/
inductive Value where
  | str : String → Value
  | int : Int → Value
  | boolean : Bool → Value
  | null : Value
deriving DecidableEq

/-- A JavaScript object: an ordered list of field assignments.  A later
assignment to a key overwrites an earlier one, matching object-literal and
spread semantics. -/
structure Obj where
  fields : List (String × Value)
deriving DecidableEq

/-- Lookup in an assignment list where the latest assignment wins. -/
def lastWins : List (String × Value) → String → Option Value
  | [], _ => none
  | (k, v) :: rest, key =>
    match lastWins rest key with
    | some v' => some v'
    | none => if k = key then some v else none

/-- Field lookup on a JavaScript object. -/
def Obj.get (o : Obj) (key : String) : Option Value :=
  lastWins o.fields key

/-- A firestore document snapshot.  `data? = none` models the snapshot of a
missing document, whose `data()` is `undefined`. -/
structure DocumentSnapshot where
  id : String
  data? : Option Obj
deriving DecidableEq

/-- The client's `snapshot.exists`: true exactly when `data()` is defined. -/
def DocumentSnapshot.exists_ (s : DocumentSnapshot) : Bool :=
  s.data?.isSome

/-- Embedding of `toDocumentWithId` (src/lib/types.ts): the object literal
placing `documentId := document.id` first and then spreading
`document.data()` (spreading `undefined` adds nothing). -/
def toDocumentWithId (document : DocumentSnapshot) : Obj :=
  ⟨("documentId", Value.str document.id) :: (document.data?.map Obj.fields).getD []⟩

/-- A query snapshot: the list of (existing) documents a query returned. -/
structure QuerySnapshot where
  docs : List DocumentSnapshot
deriving DecidableEq

/-- The client's `querySnapshot.empty`. -/
def QuerySnapshot.empty (s : QuerySnapshot) : Bool :=
  s.docs.isEmpty

/-- The client's `querySnapshot.size`. -/
def QuerySnapshot.size (s : QuerySnapshot) : Nat :=
  s.docs.length

/-- The abstract syntax of a client query, as built by the chained calls of
the client's `Query` API.  `coll` is the collection reference itself, which
the client treats as the query over the whole collection. -/
inductive QuerySpec where
  | coll : String → QuerySpec
  | where_ : QuerySpec → String → String → Value → QuerySpec
  | orderBy : QuerySpec → String → String → QuerySpec
  | offset : QuerySpec → Int → QuerySpec
  | limit : QuerySpec → Int → QuerySpec
  | startAt : QuerySpec → DocumentSnapshot → QuerySpec
  | startAfter : QuerySpec → DocumentSnapshot → QuerySpec
  | endAt : QuerySpec → DocumentSnapshot → QuerySpec
  | endBefore : QuerySpec → DocumentSnapshot → QuerySpec
deriving DecidableEq

/-- The collection a query ranges over (its root collection reference). -/
def QuerySpec.root : QuerySpec → String
  | .coll c => c
  | .where_ q _ _ _ => q.root
  | .orderBy q _ _ => q.root
  | .offset q _ => q.root
  | .limit q _ => q.root
  | .startAt q _ => q.root
  | .startAfter q _ => q.root
  | .endAt q _ => q.root
  | .endBefore q _ => q.root

/-- Errors raised by the external client; this layer never inspects them. -/
abbrev Err := String

/-- An opaque transaction handle passed to transaction callbacks. -/
abbrev Transaction := Nat

/-- The external firestore client, modelled as an oracle: each method maps
its arguments to a result or a rejection.  Document methods take the
collection name and document id addressed by
`collection.doc(documentId)`. -/
structure Client where
  get : String → String → Except Err DocumentSnapshot
  set : String → String → Obj → Except Err Unit
  update : String → String → Obj → Except Err Unit
  delete : String → String → Except Err Unit
  runQuery : QuerySpec → Except Err QuerySnapshot
  runTransactionM : (Transaction → Except Err Value) → Except Err Value

/-- One observable invocation of a client method, for traces. -/
inductive ClientCall where
  | get : String → String → ClientCall
  | set : String → String → Obj → ClientCall
  | update : String → String → Obj → ClientCall
  | delete : String → String → ClientCall
  | runQuery : QuerySpec → ClientCall
  | onSnapshot : QuerySpec → ClientCall
  | runTransaction : ClientCall
deriving DecidableEq

/-- The collection a client call addresses, when it addresses one. -/
def ClientCall.touches : ClientCall → Option String
  | .get c _ => some c
  | .set c _ _ => some c
  | .update c _ _ => some c
  | .delete c _ => some c
  | .runQuery q => some q.root
  | .onSnapshot q => some q.root
  | .runTransaction => none

/-! ## Decorator metadata (src/lib/decorators.ts) -/

/-- The `reflect-metadata` store: metadata key and target constructor to
stored value.  Constructors are identified by name. -/
structure MetaStore where
  find : String → String → Option String

/-- A store with no metadata defined. -/
def emptyMetaStore : MetaStore :=
  ⟨fun _ _ => none⟩

/-- `Reflect.defineMetadata(key, value, target)`. -/
def defineMetadata (m : MetaStore) (key value target : String) : MetaStore :=
  ⟨fun k t => if k = key ∧ t = target then some value else m.find k t⟩

/-- `Reflect.getMetadata(key, target)`. -/
def getMetadata (m : MetaStore) (key target : String) : Option String :=
  m.find key target

/-- Modelled from the spec: src/lib/constants.ts is not among the sources;
the metadata key constant is modelled as an arbitrary fixed string, which
is all the decorator store and read-back round trip depends on. -/
def FIRESTORE_COLLECTION_NAME_KEY : String :=
  "firestore:collection-name"

/-- Embedding of the `FirestoreDocument` decorator (src/lib/decorators.ts):
applied to a class constructor it stores the collection name in the
metadata store under the collection-name key. -/
def FirestoreDocument (collectionName : String) (constructor : String)
    (m : MetaStore) : MetaStore :=
  defineMetadata m FIRESTORE_COLLECTION_NAME_KEY collectionName constructor

/-! ## Repository (src/lib/repository-base.ts) -/

/-- A constructed repository: it holds the collection reference obtained
from `firestore.collection(collectionName)`, identified by its name. -/
structure FirestoreRepositoryBase where
  collection : String
deriving DecidableEq

/-- Embedding of the `FirestoreRepositoryBase` constructor: it reads the
collection name back from the entity type's decorator metadata and binds
the repository to that client collection.  `none` models the failure when
no decorator metadata is present on the entity type. -/
def mkFirestoreRepositoryBase (m : MetaStore) (entityType : String) :
    Option FirestoreRepositoryBase :=
  (getMetadata m FIRESTORE_COLLECTION_NAME_KEY entityType).map
    (fun collectionName => ⟨collectionName⟩)

/-- `documentId || crypto.randomUUID()`: JavaScript `||` falls back on the
generated uuid when the argument is absent or the empty string (falsy). -/
def orUuid (documentId? : Option String) (uuid : String) : String :=
  match documentId? with
  | some s => if s = "" then uuid else s
  | none => uuid

/-- Embedding of `FirestoreRepositoryBase.create`: set the document, read
it back, and reshape the snapshot.  `uuid` is the value
`crypto.randomUUID()` would produce. -/
def FirestoreRepositoryBase.create (repo : FirestoreRepositoryBase)
    (client : Client) (data : Obj) (documentId? : Option String)
    (uuid : String) : List ClientCall × Except Err Obj :=
  let documentId := orUuid documentId? uuid
  match client.set repo.collection documentId data with
  | .error e => ([ClientCall.set repo.collection documentId data], .error e)
  | .ok _ =>
    match client.get repo.collection documentId with
    | .error e =>
      ([ClientCall.set repo.collection documentId data,
        ClientCall.get repo.collection documentId], .error e)
    | .ok document =>
      ([ClientCall.set repo.collection documentId data,
        ClientCall.get repo.collection documentId],
       .ok (toDocumentWithId document))

/-- Embedding of `FirestoreRepositoryBase.update`: update the document,
read it back, and reshape the snapshot. -/
def FirestoreRepositoryBase.update (repo : FirestoreRepositoryBase)
    (client : Client) (documentId : String) (data : Obj) :
    List ClientCall × Except Err Obj :=
  match client.update repo.collection documentId data with
  | .error e => ([ClientCall.update repo.collection documentId data], .error e)
  | .ok _ =>
    match client.get repo.collection documentId with
    | .error e =>
      ([ClientCall.update repo.collection documentId data,
        ClientCall.get repo.collection documentId], .error e)
    | .ok document =>
      ([ClientCall.update repo.collection documentId data,
        ClientCall.get repo.collection documentId],
       .ok (toDocumentWithId document))

/-- Embedding of `FirestoreRepositoryBase.findOneById`. -/
def FirestoreRepositoryBase.findOneById (repo : FirestoreRepositoryBase)
    (client : Client) (documentId : String) :
    List ClientCall × Except Err (Option Obj) :=
  ([ClientCall.get repo.collection documentId],
   match client.get repo.collection documentId with
   | .error e => .error e
   | .ok document =>
     .ok (if document.exists_ then some (toDocumentWithId document) else none))

/-- Embedding of `FirestoreRepositoryBase.deleteById`. -/
def FirestoreRepositoryBase.deleteById (repo : FirestoreRepositoryBase)
    (client : Client) (documentId : String) :
    List ClientCall × Except Err Unit :=
  ([ClientCall.delete repo.collection documentId],
   match client.delete repo.collection documentId with
   | .error e => .error e
   | .ok _ => .ok ())

/-- Embedding of `FirestoreRepositoryBase.existsById`. -/
def FirestoreRepositoryBase.existsById (repo : FirestoreRepositoryBase)
    (client : Client) (documentId : String) :
    List ClientCall × Except Err Bool :=
  ([ClientCall.get repo.collection documentId],
   match client.get repo.collection documentId with
   | .error e => .error e
   | .ok document => .ok document.exists_)

/-- Embedding of `FirestoreRepositoryBase.runTransaction`: it forwards the
callback to the client's `runTransaction`, wrapped in a lambda that merely
awaits it. -/
def FirestoreRepositoryBase.runTransaction (repo : FirestoreRepositoryBase)
    (client : Client) (execute : Transaction → Except Err Value) :
    List ClientCall × Except Err Value :=
  ([ClientCall.runTransaction],
   client.runTransactionM (fun transaction => execute transaction))

/-! ## Query builder (src/lib/firestore.query-builder.ts) -/

/-- The query builder's state: the collection reference it was constructed
over and the accumulated query (initialized to the reference itself). -/
structure FirestoreQueryBuilder where
  reference : String
  query : QuerySpec
deriving DecidableEq

/-- Embedding of the `FirestoreQueryBuilder` constructor:
`this.query = this.reference`. -/
def newFirestoreQueryBuilder (reference : String) : FirestoreQueryBuilder :=
  ⟨reference, QuerySpec.coll reference⟩

/-- Embedding of `FirestoreRepositoryBase.createQueryBuilder`. -/
def FirestoreRepositoryBase.createQueryBuilder (repo : FirestoreRepositoryBase) :
    FirestoreQueryBuilder :=
  newFirestoreQueryBuilder repo.collection

/-- Embedding of the builder's `where` (a Lean keyword, hence the
underscore): apply the client's `Query.where` and return the builder. -/
def FirestoreQueryBuilder.where_ (b : FirestoreQueryBuilder)
    (field operator : String) (value : Value) : FirestoreQueryBuilder :=
  { b with query := QuerySpec.where_ b.query field operator value }

/-- Embedding of the builder's `orderBy`. -/
def FirestoreQueryBuilder.orderBy (b : FirestoreQueryBuilder)
    (field direction : String) : FirestoreQueryBuilder :=
  { b with query := QuerySpec.orderBy b.query field direction }

/-- Embedding of the builder's `offset`. -/
def FirestoreQueryBuilder.offset (b : FirestoreQueryBuilder) (n : Int) :
    FirestoreQueryBuilder :=
  { b with query := QuerySpec.offset b.query n }

/-- Embedding of the builder's `limit`. -/
def FirestoreQueryBuilder.limit (b : FirestoreQueryBuilder) (n : Int) :
    FirestoreQueryBuilder :=
  { b with query := QuerySpec.limit b.query n }

/-- Embedding of the builder's `startAt`. -/
def FirestoreQueryBuilder.startAt (b : FirestoreQueryBuilder)
    (snapshot : DocumentSnapshot) : FirestoreQueryBuilder :=
  { b with query := QuerySpec.startAt b.query snapshot }

/-- Embedding of the builder's `startAfter`. -/
def FirestoreQueryBuilder.startAfter (b : FirestoreQueryBuilder)
    (snapshot : DocumentSnapshot) : FirestoreQueryBuilder :=
  { b with query := QuerySpec.startAfter b.query snapshot }

/-- Embedding of the builder's `endAt`. -/
def FirestoreQueryBuilder.endAt (b : FirestoreQueryBuilder)
    (snapshot : DocumentSnapshot) : FirestoreQueryBuilder :=
  { b with query := QuerySpec.endAt b.query snapshot }

/-- Embedding of the builder's `endBefore`. -/
def FirestoreQueryBuilder.endBefore (b : FirestoreQueryBuilder)
    (snapshot : DocumentSnapshot) : FirestoreQueryBuilder :=
  { b with query := QuerySpec.endBefore b.query snapshot }

/-- Embedding of the builder's `clear`: `this.query = this.reference`. -/
def FirestoreQueryBuilder.clear (b : FirestoreQueryBuilder) :
    FirestoreQueryBuilder :=
  { b with query := QuerySpec.coll b.reference }

/-- Embedding of the builder's `onSnapshot`: one listener registration on
the accumulated query (the returned unsubscribe function is the
client's). -/
def FirestoreQueryBuilder.onSnapshot (b : FirestoreQueryBuilder) :
    List ClientCall :=
  [ClientCall.onSnapshot b.query]

/-- Embedding of the builder's `getOne`: execute `this.query.limit(1)` — a
derived query, leaving the builder's own state untouched — and reshape the
first document, if any.  The first component is the builder's state after
the call. -/
def FirestoreQueryBuilder.getOne (b : FirestoreQueryBuilder)
    (client : Client) :
    FirestoreQueryBuilder × List ClientCall × Except Err (Option Obj) :=
  (b, [ClientCall.runQuery (QuerySpec.limit b.query 1)],
   match client.runQuery (QuerySpec.limit b.query 1) with
   | .error e => .error e
   | .ok documents =>
     .ok (if documents.empty then none
          else documents.docs.head?.map toDocumentWithId))

/-- Embedding of the builder's `getMany`: execute the accumulated query and
reshape every document. -/
def FirestoreQueryBuilder.getMany (b : FirestoreQueryBuilder)
    (client : Client) :
    FirestoreQueryBuilder × List ClientCall × Except Err (List Obj) :=
  (b, [ClientCall.runQuery b.query],
   match client.runQuery b.query with
   | .error e => .error e
   | .ok documents => .ok (documents.docs.map toDocumentWithId))

/-- The result shape of `getManyAndCount`. -/
structure ManyAndCount where
  count : Nat
  data : List Obj
deriving DecidableEq

/-- Embedding of the builder's `getManyAndCount`. -/
def FirestoreQueryBuilder.getManyAndCount (b : FirestoreQueryBuilder)
    (client : Client) :
    FirestoreQueryBuilder × List ClientCall × Except Err ManyAndCount :=
  (b, [ClientCall.runQuery b.query],
   match client.runQuery b.query with
   | .error e => .error e
   | .ok documents => .ok ⟨documents.size, documents.docs.map toDocumentWithId⟩)

/-- Embedding of the builder's `count`. -/
def FirestoreQueryBuilder.count (b : FirestoreQueryBuilder)
    (client : Client) :
    FirestoreQueryBuilder × List ClientCall × Except Err Nat :=
  (b, [ClientCall.runQuery b.query],
   match client.runQuery b.query with
   | .error e => .error e
   | .ok documents => .ok documents.size)

/-- One chaining call on the builder, for quantifying over call
sequences. -/
inductive ChainStep where
  | cwhere : String → String → Value → ChainStep
  | corderBy : String → String → ChainStep
  | coffset : Int → ChainStep
  | climit : Int → ChainStep
  | cstartAt : DocumentSnapshot → ChainStep
  | cstartAfter : DocumentSnapshot → ChainStep
  | cendAt : DocumentSnapshot → ChainStep
  | cendBefore : DocumentSnapshot → ChainStep
  | cclear : ChainStep
deriving DecidableEq

/-- Apply one chaining call to a builder. -/
def applyStep (b : FirestoreQueryBuilder) : ChainStep → FirestoreQueryBuilder
  | .cwhere f op v => b.where_ f op v
  | .corderBy f dir => b.orderBy f dir
  | .coffset n => b.offset n
  | .climit n => b.limit n
  | .cstartAt s => b.startAt s
  | .cstartAfter s => b.startAfter s
  | .cendAt s => b.endAt s
  | .cendBefore s => b.endBefore s
  | .cclear => b.clear

/-- Apply a sequence of chaining calls, left to right. -/
def applyChain (b : FirestoreQueryBuilder) (steps : List ChainStep) :
    FirestoreQueryBuilder :=
  steps.foldl applyStep b

/-! ## Concrete fixtures used by witnesses and counterexamples -/

/-- A sample document body without a field named documentId. -/
def sampleData : Obj :=
  ⟨[("displayName", Value.str "alice")]⟩

/-- A document body that itself stores a field named documentId. -/
def clashData : Obj :=
  ⟨[("documentId", Value.str "other"), ("displayName", Value.str "alice")]⟩

/-- A snapshot of an existing document with the sample body. -/
def sampleSnap : DocumentSnapshot :=
  ⟨"d1", some sampleData⟩

/-- A snapshot whose stored body itself has a documentId field. -/
def clashSnap : DocumentSnapshot :=
  ⟨"d1", some clashData⟩

/-- A one-document query snapshot. -/
def sampleQuerySnap : QuerySnapshot :=
  ⟨[sampleSnap]⟩

/-- A client that answers every call successfully: `get` returns an
existing document with the sample body under the requested id, queries
return the one-document snapshot, transactions run their callback once. -/
def okClient : Client where
  get := fun _ documentId => .ok ⟨documentId, some sampleData⟩
  set := fun _ _ _ => .ok ()
  update := fun _ _ _ => .ok ()
  delete := fun _ _ => .ok ()
  runQuery := fun _ => .ok sampleQuerySnap
  runTransactionM := fun execute => execute 0

/-- A client whose stored document body itself contains a documentId
field. -/
def clashClient : Client :=
  { okClient with get := fun _ _ => .ok clashSnap }

/-- A repository bound to the accounts collection. -/
def sampleRepo : FirestoreRepositoryBase :=
  ⟨"accounts"⟩

/-- A metadata store where the decorator was applied to AccountDocument. -/
def sampleMeta : MetaStore :=
  FirestoreDocument "accounts" "AccountDocument" emptyMetaStore

/-! ## Theorems -/

theorem applyStep_reference (b : FirestoreQueryBuilder) (s : ChainStep) :
    (applyStep b s).reference = b.reference := by
  cases s <;> rfl

theorem applyChain_reference (b : FirestoreQueryBuilder)
    (steps : List ChainStep) :
    (applyChain b steps).reference = b.reference := by
  induction steps generalizing b with
  | nil => rfl
  | cons s rest ih =>
    have h1 : applyChain b (s :: rest) = applyChain (applyStep b s) rest := rfl
    rw [h1, ih (applyStep b s), applyStep_reference]

theorem toDocumentWithId_documentId (s : DocumentSnapshot) (d : Obj)
    (hdata : s.data? = some d) (hnoclash : d.get "documentId" = none) :
    (toDocumentWithId s).get "documentId" = some (Value.str s.id) := by
  have h : lastWins d.fields "documentId" = none := hnoclash
  simp [toDocumentWithId, Obj.get, hdata, lastWins, h]

theorem toDocumentWithId_get (s : DocumentSnapshot) (d : Obj) (k : String)
    (hdata : s.data? = some d) (hk : k ≠ "documentId") :
    (toDocumentWithId s).get k = d.get k := by
  have h0 : (toDocumentWithId s).get k
      = lastWins (("documentId", Value.str s.id) :: d.fields) k := by
    simp [toDocumentWithId, Obj.get, hdata]
  rw [h0]
  simp only [lastWins]
  cases h : lastWins d.fields k with
  | some v => simp [Obj.get, h]
  | none => simp [Obj.get, h, if_neg (Ne.symm hk)]

/-- C3: the query builder is a pass-through wrapper: each of the nine
chaining calls (where, orderBy, offset, limit, startAt, startAfter, endAt,
endBefore, clear) applies the corresponding client query construction to
the accumulated query (clear resets it to the collection reference) and
returns the builder over the same collection for further chaining, and
each of the four materialization calls (getOne, getMany, getManyAndCount,
count) executes the accumulated query in a single client query execution,
getOne on the derived query limited to one result. -/
theorem c3_query_builder_passthrough (b : FirestoreQueryBuilder)
    (field operator direction : String) (value : Value) (n : Int)
    (snapshot : DocumentSnapshot) (client : Client) :
    b.where_ field operator value
      = ⟨b.reference, QuerySpec.where_ b.query field operator value⟩
  ∧ b.orderBy field direction
      = ⟨b.reference, QuerySpec.orderBy b.query field direction⟩
  ∧ b.offset n = ⟨b.reference, QuerySpec.offset b.query n⟩
  ∧ b.limit n = ⟨b.reference, QuerySpec.limit b.query n⟩
  ∧ b.startAt snapshot = ⟨b.reference, QuerySpec.startAt b.query snapshot⟩
  ∧ b.startAfter snapshot
      = ⟨b.reference, QuerySpec.startAfter b.query snapshot⟩
  ∧ b.endAt snapshot = ⟨b.reference, QuerySpec.endAt b.query snapshot⟩
  ∧ b.endBefore snapshot
      = ⟨b.reference, QuerySpec.endBefore b.query snapshot⟩
  ∧ b.clear = ⟨b.reference, QuerySpec.coll b.reference⟩
  ∧ (b.getOne client).2.1 = [ClientCall.runQuery (QuerySpec.limit b.query 1)]
  ∧ (b.getMany client).2.1 = [ClientCall.runQuery b.query]
  ∧ (b.getManyAndCount client).2.1 = [ClientCall.runQuery b.query]
  ∧ (b.count client).2.1 = [ClientCall.runQuery b.query] := by
  obtain ⟨r, q⟩ := b
  exact ⟨rfl, rfl, rfl, rfl, rfl, rfl, rfl, rfl, rfl, rfl, rfl, rfl, rfl⟩

/-- C4: applying the FirestoreDocument decorator with collection name n to
a class stores n as metadata on its constructor, and constructing a
repository for that entity type reads back exactly n and binds the
repository to the client collection named n. -/
theorem c4_decorator_roundtrip (m : MetaStore)
    (collectionName entityType : String) :
    getMetadata (FirestoreDocument collectionName entityType m)
      FIRESTORE_COLLECTION_NAME_KEY entityType = some collectionName
  ∧ mkFirestoreRepositoryBase (FirestoreDocument collectionName entityType m)
      entityType = some ⟨collectionName⟩ := by
  have h : getMetadata (FirestoreDocument collectionName entityType m)
      FIRESTORE_COLLECTION_NAME_KEY entityType = some collectionName := by
    simp [getMetadata, FirestoreDocument, defineMetadata]
  exact ⟨h, by simp [mkFirestoreRepositoryBase, h]⟩

/-- C7: the repository's runTransaction is observationally equal to the
client's runTransaction called directly with the same callback: same
result, same rejection, and a single client transaction call. -/
theorem c7_run_transaction_passthrough (repo : FirestoreRepositoryBase)
    (client : Client) (execute : Transaction → Except Err Value) :
    (repo.runTransaction client execute).2 = client.runTransactionM execute
  ∧ (repo.runTransaction client execute).1 = [ClientCall.runTransaction] :=
  ⟨rfl, rfl⟩

/-- C8: when a snapshot's stored data itself contains a field named
documentId, toDocumentWithId returns the data's own value for that field:
the spread of the document data after the attached id overwrites it. -/
theorem c8_data_document_id_wins (s : DocumentSnapshot) (d : Obj) (v : Value)
    (hdata : s.data? = some d) (hid : d.get "documentId" = some v) :
    (toDocumentWithId s).get "documentId" = some v := by
  have hid' : lastWins d.fields "documentId" = some v := hid
  simp [toDocumentWithId, Obj.get, hdata, lastWins, hid']

/-- Witness for C8 at a concrete snapshot. -/
theorem c8a_data_document_id_wins_witness :
    clashSnap.data? = some clashData
  ∧ clashData.get "documentId" = some (Value.str "other")
  ∧ (toDocumentWithId clashSnap).get "documentId" = some (Value.str "other") :=
  ⟨rfl, by decide,
   c8_data_document_id_wins clashSnap clashData (Value.str "other") rfl
     (by decide)⟩

/-- C9: getOne leaves the builder's accumulated query unchanged: the limit
of one is applied only to a derived query, and a subsequent getMany on the
builder returns exactly what it would have without the getOne. -/
theorem c9_get_one_frame (b : FirestoreQueryBuilder) (client : Client) :
    (b.getOne client).1 = b
  ∧ (b.getOne client).2.1 = [ClientCall.runQuery (QuerySpec.limit b.query 1)]
  ∧ ((b.getOne client).1.getMany client) = b.getMany client :=
  ⟨rfl, rfl, rfl⟩

/-- C10: after any sequence of chaining calls on a freshly constructed
builder, clear returns the builder to exactly the freshly constructed
state over the same collection reference, so all subsequent calls behave
as on a fresh builder. -/
theorem c10_clear_resets_to_fresh (reference : String)
    (steps : List ChainStep) :
    (applyChain (newFirestoreQueryBuilder reference) steps).clear
      = newFirestoreQueryBuilder reference := by
  have h := applyChain_reference (newFirestoreQueryBuilder reference) steps
  simp [newFirestoreQueryBuilder] at h
  simp [FirestoreQueryBuilder.clear, newFirestoreQueryBuilder, h]

/-- Counterexample to C1: reading a document whose stored data itself
contains a documentId field yields that stored value under documentId, not
the snapshot's id. -/
theorem c1x_document_id_not_snapshot_id :
    (sampleRepo.findOneById clashClient "d1").2
      = .ok (some (toDocumentWithId clashSnap))
  ∧ clashSnap.id = "d1"
  ∧ (toDocumentWithId clashSnap).get "documentId" = some (Value.str "other")
  ∧ (toDocumentWithId clashSnap).get "documentId" ≠ some (Value.str "d1") :=
  ⟨rfl, rfl, by decide, by decide⟩

/-- C1 (amended): every read operation returns the snapshot's data with
the snapshot id attached first and the data spread after it; whenever the
stored data has no documentId field of its own, the result's documentId
equals the snapshot's id and every data field is preserved (a stored
documentId field would override the attached id). -/
theorem c1_read_reshapes_snapshot (repo : FirestoreRepositoryBase)
    (client : Client) (documentId uuid : String) (data upd : Obj)
    (snap : DocumentSnapshot) (d : Obj) (b : FirestoreQueryBuilder)
    (qsnap qsnap1 : QuerySnapshot) (d1 : DocumentSnapshot)
    (rest : List DocumentSnapshot)
    (hne : documentId ≠ "")
    (hget : client.get repo.collection documentId = .ok snap)
    (hset : client.set repo.collection documentId data = .ok ())
    (hupd : client.update repo.collection documentId upd = .ok ())
    (hq : client.runQuery b.query = .ok qsnap)
    (hq1 : client.runQuery (QuerySpec.limit b.query 1) = .ok qsnap1)
    (hq1docs : qsnap1.docs = d1 :: rest)
    (hdata : snap.data? = some d)
    (hnoclash : d.get "documentId" = none) :
    (repo.findOneById client documentId).2
      = .ok (some (toDocumentWithId snap))
  ∧ (repo.create client data (some documentId) uuid).2
      = .ok (toDocumentWithId snap)
  ∧ (repo.update client documentId upd).2 = .ok (toDocumentWithId snap)
  ∧ (b.getOne client).2.2 = .ok (some (toDocumentWithId d1))
  ∧ (b.getMany client).2.2 = .ok (qsnap.docs.map toDocumentWithId)
  ∧ (b.getManyAndCount client).2.2
      = .ok ⟨qsnap.size, qsnap.docs.map toDocumentWithId⟩
  ∧ (toDocumentWithId snap).get "documentId" = some (Value.str snap.id)
  ∧ (∀ k, k ≠ "documentId" → (toDocumentWithId snap).get k = d.get k) := by
  have hex : snap.exists_ = true := by
    simp [DocumentSnapshot.exists_, hdata]
  refine ⟨?_, ?_, ?_, ?_, ?_, ?_,
    toDocumentWithId_documentId snap d hdata hnoclash,
    fun k hk => toDocumentWithId_get snap d k hdata hk⟩
  · simp [FirestoreRepositoryBase.findOneById, hget, hex]
  · have hid : orUuid (some documentId) uuid = documentId := by
      simp [orUuid, hne]
    simp [FirestoreRepositoryBase.create, hid, hset, hget]
  · simp [FirestoreRepositoryBase.update, hupd, hget]
  · simp [FirestoreQueryBuilder.getOne, hq1, QuerySnapshot.empty, hq1docs]
  · simp [FirestoreQueryBuilder.getMany, hq]
  · simp [FirestoreQueryBuilder.getManyAndCount, hq]

/-- Witness for C1 (amended) at a concrete repository, client, builder and
snapshot. -/
theorem c1a_read_reshapes_snapshot_witness :
    ("d1" : String) ≠ ""
  ∧ okClient.get sampleRepo.collection "d1" = .ok sampleSnap
  ∧ okClient.set sampleRepo.collection "d1" sampleData = .ok ()
  ∧ okClient.update sampleRepo.collection "d1" sampleData = .ok ()
  ∧ okClient.runQuery (newFirestoreQueryBuilder "accounts").query
      = .ok sampleQuerySnap
  ∧ okClient.runQuery
      (QuerySpec.limit (newFirestoreQueryBuilder "accounts").query 1)
      = .ok sampleQuerySnap
  ∧ sampleQuerySnap.docs = sampleSnap :: []
  ∧ sampleSnap.data? = some sampleData
  ∧ sampleData.get "documentId" = none
  ∧ ((sampleRepo.findOneById okClient "d1").2
        = .ok (some (toDocumentWithId sampleSnap))
     ∧ (sampleRepo.create okClient sampleData (some "d1") "u1").2
        = .ok (toDocumentWithId sampleSnap)
     ∧ (sampleRepo.update okClient "d1" sampleData).2
        = .ok (toDocumentWithId sampleSnap)
     ∧ ((newFirestoreQueryBuilder "accounts").getOne okClient).2.2
        = .ok (some (toDocumentWithId sampleSnap))
     ∧ ((newFirestoreQueryBuilder "accounts").getMany okClient).2.2
        = .ok (sampleQuerySnap.docs.map toDocumentWithId)
     ∧ ((newFirestoreQueryBuilder "accounts").getManyAndCount okClient).2.2
        = .ok ⟨sampleQuerySnap.size, sampleQuerySnap.docs.map toDocumentWithId⟩
     ∧ (toDocumentWithId sampleSnap).get "documentId"
        = some (Value.str sampleSnap.id)
     ∧ (∀ k, k ≠ "documentId" →
          (toDocumentWithId sampleSnap).get k = sampleData.get k)) :=
  ⟨by decide, rfl, rfl, rfl, rfl, rfl, rfl, rfl, by decide,
   c1_read_reshapes_snapshot sampleRepo okClient "d1" "u1" sampleData
     sampleData sampleSnap sampleData (newFirestoreQueryBuilder "accounts")
     sampleQuerySnap sampleQuerySnap sampleSnap [] (by decide) rfl rfl rfl
     rfl rfl rfl rfl (by decide)⟩

/-- Counterexample to C2: create is not one client invocation; it performs
a set followed by a get. -/
theorem c2x_create_two_calls :
    (sampleRepo.create okClient sampleData none "u1").1
      = [ClientCall.set "accounts" "u1" sampleData,
         ClientCall.get "accounts" "u1"]
  ∧ (sampleRepo.create okClient sampleData none "u1").1.length ≠ 1 :=
  ⟨rfl, by decide⟩

/-- C2 (amended): every operation delegates directly to the client:
findOneById, deleteById, existsById, runTransaction and the four
materializers each perform exactly one client call with the caller's
arguments (the listener registration likewise), while create and update
perform the write with the caller's arguments followed by one get
re-reading the same document, the get being skipped when the write
rejects. -/
theorem c2_delegation_shape (repo : FirestoreRepositoryBase)
    (client : Client) (documentId uuid : String) (data upd : Obj)
    (documentId? : Option String) (b : FirestoreQueryBuilder)
    (execute : Transaction → Except Err Value) :
    (repo.findOneById client documentId).1
      = [ClientCall.get repo.collection documentId]
  ∧ (repo.deleteById client documentId).1
      = [ClientCall.delete repo.collection documentId]
  ∧ (repo.existsById client documentId).1
      = [ClientCall.get repo.collection documentId]
  ∧ (repo.runTransaction client execute).1 = [ClientCall.runTransaction]
  ∧ (repo.create client data documentId? uuid).1
      = (match client.set repo.collection (orUuid documentId? uuid) data with
         | .error _ =>
           [ClientCall.set repo.collection (orUuid documentId? uuid) data]
         | .ok _ =>
           [ClientCall.set repo.collection (orUuid documentId? uuid) data,
            ClientCall.get repo.collection (orUuid documentId? uuid)])
  ∧ (repo.update client documentId upd).1
      = (match client.update repo.collection documentId upd with
         | .error _ => [ClientCall.update repo.collection documentId upd]
         | .ok _ => [ClientCall.update repo.collection documentId upd,
                     ClientCall.get repo.collection documentId])
  ∧ (b.getOne client).2.1 = [ClientCall.runQuery (QuerySpec.limit b.query 1)]
  ∧ (b.getMany client).2.1 = [ClientCall.runQuery b.query]
  ∧ (b.getManyAndCount client).2.1 = [ClientCall.runQuery b.query]
  ∧ (b.count client).2.1 = [ClientCall.runQuery b.query]
  ∧ b.onSnapshot = [ClientCall.onSnapshot b.query] := by
  refine ⟨rfl, rfl, rfl, rfl, ?_, ?_, rfl, rfl, rfl, rfl, rfl⟩
  · cases h : client.set repo.collection (orUuid documentId? uuid) data with
    | error e => simp [FirestoreRepositoryBase.create, h]
    | ok u =>
      cases hg : client.get repo.collection (orUuid documentId? uuid) <;>
        simp [FirestoreRepositoryBase.create, h, hg]
  · cases h : client.update repo.collection documentId upd with
    | error e => simp [FirestoreRepositoryBase.update, h]
    | ok u =>
      cases hg : client.get repo.collection documentId <;>
        simp [FirestoreRepositoryBase.update, h, hg]

/-- C5: a repository constructed from decorator metadata is bound to the
collection the metadata names, and each of the five CRUD operations
(create, update, findOneById, deleteById, existsById) touches only that
collection. -/
theorem c5_crud_single_collection (m : MetaStore) (entityType : String)
    (repo : FirestoreRepositoryBase) (client : Client)
    (documentId uuid : String) (data upd : Obj)
    (documentId? : Option String)
    (hrepo : mkFirestoreRepositoryBase m entityType = some repo) :
    getMetadata m FIRESTORE_COLLECTION_NAME_KEY entityType
      = some repo.collection
  ∧ (∀ c ∈ (repo.create client data documentId? uuid).1,
       c.touches = some repo.collection)
  ∧ (∀ c ∈ (repo.update client documentId upd).1,
       c.touches = some repo.collection)
  ∧ (∀ c ∈ (repo.findOneById client documentId).1,
       c.touches = some repo.collection)
  ∧ (∀ c ∈ (repo.deleteById client documentId).1,
       c.touches = some repo.collection)
  ∧ (∀ c ∈ (repo.existsById client documentId).1,
       c.touches = some repo.collection) := by
  have hmeta : getMetadata m FIRESTORE_COLLECTION_NAME_KEY entityType
      = some repo.collection := by
    cases hm : getMetadata m FIRESTORE_COLLECTION_NAME_KEY entityType with
    | none => simp [mkFirestoreRepositoryBase, hm] at hrepo
    | some name =>
      simp [mkFirestoreRepositoryBase, hm] at hrepo
      subst hrepo
      rfl
  refine ⟨hmeta, ?_, ?_, ?_, ?_, ?_⟩
  · cases h : client.set repo.collection (orUuid documentId? uuid) data with
    | error e =>
      intro c hc
      simp [FirestoreRepositoryBase.create, h] at hc
      subst hc
      rfl
    | ok u =>
      cases hg : client.get repo.collection (orUuid documentId? uuid) <;>
        (intro c hc
         simp [FirestoreRepositoryBase.create, h, hg] at hc
         rcases hc with hc | hc <;> subst hc <;> rfl)
  · cases h : client.update repo.collection documentId upd with
    | error e =>
      intro c hc
      simp [FirestoreRepositoryBase.update, h] at hc
      subst hc
      rfl
    | ok u =>
      cases hg : client.get repo.collection documentId <;>
        (intro c hc
         simp [FirestoreRepositoryBase.update, h, hg] at hc
         rcases hc with hc | hc <;> subst hc <;> rfl)
  · intro c hc
    simp [FirestoreRepositoryBase.findOneById] at hc
    subst hc
    rfl
  · intro c hc
    simp [FirestoreRepositoryBase.deleteById] at hc
    subst hc
    rfl
  · intro c hc
    simp [FirestoreRepositoryBase.existsById] at hc
    subst hc
    rfl

/-- Witness for C5 at a concrete metadata store, repository and client. -/
theorem c5a_crud_single_collection_witness :
    mkFirestoreRepositoryBase sampleMeta "AccountDocument" = some sampleRepo
  ∧ (getMetadata sampleMeta FIRESTORE_COLLECTION_NAME_KEY "AccountDocument"
       = some sampleRepo.collection
     ∧ (∀ c ∈ (sampleRepo.create okClient sampleData none "u1").1,
          c.touches = some sampleRepo.collection)
     ∧ (∀ c ∈ (sampleRepo.update okClient "d1" sampleData).1,
          c.touches = some sampleRepo.collection)
     ∧ (∀ c ∈ (sampleRepo.findOneById okClient "d1").1,
          c.touches = some sampleRepo.collection)
     ∧ (∀ c ∈ (sampleRepo.deleteById okClient "d1").1,
          c.touches = some sampleRepo.collection)
     ∧ (∀ c ∈ (sampleRepo.existsById okClient "d1").1,
          c.touches = some sampleRepo.collection)) :=
  ⟨by decide,
   c5_crud_single_collection sampleMeta "AccountDocument" sampleRepo okClient
     "d1" "u1" sampleData sampleData none (by decide)⟩

/-- C6: every repository and query-builder operation rejects exactly when
a client call it delegates to rejects, and it surfaces the client's error
unchanged, introducing no error of its own. -/
theorem c6_error_passthrough (repo : FirestoreRepositoryBase)
    (client : Client) (documentId uuid : String) (data upd : Obj)
    (documentId? : Option String) (b : FirestoreQueryBuilder)
    (execute : Transaction → Except Err Value) (e : Err) :
    ((repo.findOneById client documentId).2 = .error e
       ↔ client.get repo.collection documentId = .error e)
  ∧ ((repo.deleteById client documentId).2 = .error e
       ↔ client.delete repo.collection documentId = .error e)
  ∧ ((repo.existsById client documentId).2 = .error e
       ↔ client.get repo.collection documentId = .error e)
  ∧ ((repo.create client data documentId? uuid).2 = .error e
       ↔ (client.set repo.collection (orUuid documentId? uuid) data
            = .error e
          ∨ (client.set repo.collection (orUuid documentId? uuid) data
               = .ok ()
             ∧ client.get repo.collection (orUuid documentId? uuid)
               = .error e)))
  ∧ ((repo.update client documentId upd).2 = .error e
       ↔ (client.update repo.collection documentId upd = .error e
          ∨ (client.update repo.collection documentId upd = .ok ()
             ∧ client.get repo.collection documentId = .error e)))
  ∧ ((b.getOne client).2.2 = .error e
       ↔ client.runQuery (QuerySpec.limit b.query 1) = .error e)
  ∧ ((b.getMany client).2.2 = .error e ↔ client.runQuery b.query = .error e)
  ∧ ((b.getManyAndCount client).2.2 = .error e
       ↔ client.runQuery b.query = .error e)
  ∧ ((b.count client).2.2 = .error e ↔ client.runQuery b.query = .error e)
  ∧ ((repo.runTransaction client execute).2 = .error e
       ↔ client.runTransactionM execute = .error e) := by
  refine ⟨?_, ?_, ?_, ?_, ?_, ?_, ?_, ?_, ?_, Iff.rfl⟩
  · cases h : client.get repo.collection documentId <;>
      simp [FirestoreRepositoryBase.findOneById, h]
  · cases h : client.delete repo.collection documentId <;>
      simp [FirestoreRepositoryBase.deleteById, h]
  · cases h : client.get repo.collection documentId <;>
      simp [FirestoreRepositoryBase.existsById, h]
  · cases h : client.set repo.collection (orUuid documentId? uuid) data with
    | error e' => simp [FirestoreRepositoryBase.create, h]
    | ok u =>
      cases hg : client.get repo.collection (orUuid documentId? uuid) <;>
        simp [FirestoreRepositoryBase.create, h, hg]
  · cases h : client.update repo.collection documentId upd with
    | error e' => simp [FirestoreRepositoryBase.update, h]
    | ok u =>
      cases hg : client.get repo.collection documentId <;>
        simp [FirestoreRepositoryBase.update, h, hg]
  · cases h : client.runQuery (QuerySpec.limit b.query 1) <;>
      simp [FirestoreQueryBuilder.getOne, h]
  · cases h : client.runQuery b.query <;>
      simp [FirestoreQueryBuilder.getMany, h]
  · cases h : client.runQuery b.query <;>
      simp [FirestoreQueryBuilder.getManyAndCount, h]
  · cases h : client.runQuery b.query <;>
      simp [FirestoreQueryBuilder.count, h]

end Firestore
